import Mathlib

/-!
Verification development for a Telegram video-generation bot.

The development is a shallow embedding of the orchestration core:

* `src/veo/client.py` — the generation client (`poll_operation`,
  `download_video`); the remote HTTP endpoint is an oracle
  `remote : Nat → Except String RemoteResult` giving the outcome of the n-th
  status call (`.error` models a raised transport exception), and the
  object-storage download is an oracle `gcsFetch`.
* `src/bot/handlers/messages.py` — `calculate_cost` and the `handle_message`
  pipeline (`runRequest` below); every awaited external call is represented
  by an `Except String _` field of `Env` whose `.error` case models that call
  raising an exception.
* `src/database/settings.py` and `src/database/messages.py` — the two SQLite
  tables, embedded as association lists / record lists; the ledger state also
  carries the list of executed UPDATE statements (`updateLog`) so that the
  update history of a record is observable.

Modelling conventions: time in the poll loop advances 5 seconds per sleep and
0 seconds per request, so the n-th status call starts at elapsed time `5 * n`;
Python floats for money are embedded as exact rationals (`Rat`); Python byte
values are `Nat` below 256; `base64` is the standard RFC 4648 encoding used by
the Python stdlib.
-/

namespace VideoGen

/-! ## Base64 (models the Python stdlib `base64` used by `download_video`) -/

/-- The standard base64 alphabet. -/
def b64Alphabet : List Char :=
  "ABCDEFGHIJKLMNOPQRSTUVWXYZabcdefghijklmnopqrstuvwxyz0123456789+/".data

/-- Character encoding one 6-bit group. -/
def b64Char (n : Nat) : Char := b64Alphabet.getD n '?'

/-- Alphabet index of a character; `none` for characters outside the alphabet
(in particular for the padding character `=`). -/
def b64Val (c : Char) : Option Nat :=
  let i := b64Alphabet.indexOf c
  if i < b64Alphabet.length then some i else none

/-- Models `base64.b64encode` on a list of byte values: chunks of three bytes
become four characters, a final partial chunk is padded with `=`. -/
def b64encodeList : List Nat → List Char
  | [] => []
  | [a] => [b64Char (a / 4), b64Char (a % 4 * 16), '=', '=']
  | [a, b] =>
      [b64Char (a / 4), b64Char (a % 4 * 16 + b / 16), b64Char (b % 16 * 4), '=']
  | a :: b :: c :: rest =>
      b64Char (a / 4) :: b64Char (a % 4 * 16 + b / 16) ::
        b64Char (b % 16 * 4 + c / 64) :: b64Char (c % 64) :: b64encodeList rest

/-- Models `base64.b64decode`: four-character groups, `=` padding only in the
final group; `none` models the decoder raising `binascii.Error`. -/
def b64decodeList : List Char → Option (List Nat)
  | [] => some []
  | c1 :: c2 :: c3 :: c4 :: rest =>
      if rest.isEmpty && c3 == '=' && c4 == '=' then
        match b64Val c1, b64Val c2 with
        | some s1, some s2 => some [s1 * 4 + s2 / 16]
        | _, _ => none
      else if rest.isEmpty && c4 == '=' then
        match b64Val c1, b64Val c2, b64Val c3 with
        | some s1, some s2, some s3 =>
            some [s1 * 4 + s2 / 16, s2 % 16 * 16 + s3 / 4]
        | _, _, _ => none
      else
        match b64Val c1, b64Val c2, b64Val c3, b64Val c4, b64decodeList rest with
        | some s1, some s2, some s3, some s4, some tail =>
            some ((s1 * 4 + s2 / 16) :: (s2 % 16 * 16 + s3 / 4) ::
              (s3 % 4 * 64 + s4) :: tail)
        | _, _, _, _, _ => none
  | _ => none

/-- `base64.b64encode` producing the transported string. -/
def b64encode (bs : List Nat) : String := ⟨b64encodeList bs⟩

/-- `base64.b64decode` on the transported string. -/
def b64decode (s : String) : Option (List Nat) := b64decodeList s.data

/-! ## Video descriptors and `VeoClient.download_video` -/

/-- The two optional transport fields of one entry of the `videos` list in a
poll response (`src/veo/client.py`, `download_video`). -/
structure VideoData where
  gcsUri : Option String
  bytesBase64Encoded : Option String
  deriving Repr, DecidableEq

/-- Distinct exceptions `download_video` can raise: the explicit
`ValueError` for a descriptor with neither transport field, the unpacking
`ValueError` for a `gcsUri` without a `/` separating bucket and blob path,
a `binascii.Error` from `b64decode`, and an error raised by the external
storage client. -/
inductive DownloadErr where
  | unsupported
  | badUri
  | badBase64
  | external (msg : String)
  deriving Repr, DecidableEq

/-- Whether `needle` occurs as a contiguous block at the head of `hay`. -/
def startsWithSub : List Char → List Char → Bool
  | [], _ => true
  | _ :: _, [] => false
  | a :: as, b :: bs => a == b && startsWithSub as bs

/-- Whether `needle` occurs contiguously anywhere in `hay`; models the Python
substring test `needle in hay`. -/
def containsSub (needle : List Char) : List Char → Bool
  | [] => startsWithSub needle []
  | c :: rest => startsWithSub needle (c :: rest) || containsSub needle rest

/-- One step of `removeAll` with explicit fuel (one unit per character, which
bounds the number of steps); structural recursion keeps it kernel-evaluable. -/
def removeAllAux (pattern : List Char) : Nat → List Char → List Char
  | 0, cs => cs
  | _ + 1, [] => []
  | fuel + 1, c :: rest =>
      if pattern ≠ [] ∧ startsWithSub pattern (c :: rest) = true then
        removeAllAux pattern fuel (List.drop pattern.length (c :: rest))
      else c :: removeAllAux pattern fuel rest

/-- Deletes every occurrence of `pattern`, scanning left to right without
overlap; models the Python `str.replace(pattern, "")` applied to the URI. -/
def removeAll (pattern cs : List Char) : List Char :=
  removeAllAux pattern cs.length cs

/-- Splits at the first occurrence of a separator; models the two-part
`str.split(sep, 1)` used on the GCS URI. `none` means the separator does not
occur, in which case the Python two-name unpacking raises `ValueError`. -/
def splitOnce (sep : Char) : List Char → Option (List Char × List Char)
  | [] => none
  | c :: rest =>
      if c = sep then some ([], rest)
      else
        match splitOnce sep rest with
        | some p => some (c :: p.1, p.2)
        | none => none

/-- Models `VeoClient.download_video`. `gcsFetch bucket blob` stands for the
external `google.cloud.storage` download of a blob, which may itself raise. -/
def download_video (gcsFetch : String → String → Except String (List Nat))
    (video_data : VideoData) : Except DownloadErr (List Nat) :=
  match video_data.gcsUri with
  | some uri =>
      match splitOnce '/' (removeAll "gs://".data uri.data) with
      | some p =>
          match gcsFetch ⟨p.1⟩ ⟨p.2⟩ with
          | .ok bs => .ok bs
          | .error e => .error (.external e)
      | none => .error .badUri
  | none =>
      match video_data.bytesBase64Encoded with
      | some s =>
          match b64decode s with
          | some bs => .ok bs
          | none => .error .badBase64
      | none => .error .unsupported

/-! ## Configuration constants (`src/config/settings.py`) -/

def GLOBAL_VIDEO_QUOTA_LIMIT : Nat := 70

def DEFAULT_MODEL : String := "veo-3.1-fast-generate-001"

def DEFAULT_DURATION : Int := 8

def DEFAULT_RESOLUTION : String := "720p"

/-! ## Cost computation (`calculate_cost` in `src/bot/handlers/messages.py`) -/

/-- Models `str.lower` character-wise. The model identifiers handled by the
code are ASCII, where `Char.toLower` agrees with Python. -/
def pyLower (s : String) : String := ⟨s.data.map Char.toLower⟩

/-- Models `calculate_cost`: $0.15 per second for a model whose lowered name
contains `fast`, else $0.40 per second. Monetary amounts are embedded as
exact rationals standing for the decimal rates in the source. -/
def calculate_cost (model : String) (duration_seconds : Int) : Rat :=
  let is_fast := containsSub "fast".data (pyLower model).data
  let price_per_second : Rat := if is_fast then 15 / 100 else 40 / 100
  price_per_second * duration_seconds

/-- Spec-side reading of the pricing rule: the model name contains the
substring `fast` matched case-insensitively, i.e. some contiguous block of
the name lowercases to `fast`. -/
def SpecFastModel (m : String) : Prop :=
  ∃ l mid r, m.data = l ++ mid ++ r ∧ mid.map Char.toLower = "fast".data

/-! ## Poll loop (`VeoClient.poll_operation`) -/

/-- Parsed shape of one successful `fetchPredictOperation` response:
`done` is `result.get("done", False)`, `errorField` is the stringified value
of the `error` key when present, `videos` and `raiCount` come from the
`response` payload (empty / 0 when absent). -/
structure RemoteResult where
  done : Bool
  errorField : Option String
  videos : List VideoData
  raiCount : Nat

/-- The dictionary `poll_operation` returns. A missing
`raiMediaFilteredCount` key is represented by 0, the value the handler
defaults it to. -/
structure PollResult where
  done : Bool
  videos : List VideoData
  raiMediaFilteredCount : Nat
  error : Option String
  deriving Repr, DecidableEq

/-- The `{done: False, error: "Operation timed out", videos: []}` result. -/
def timedOutResult : PollResult := ⟨false, [], 0, some "Operation timed out"⟩

/-- Number of iterations the while-loop can start within the wall-clock
budget. In the time model a status call is instantaneous and each sleep
takes 5 seconds, so iteration `n` starts at elapsed time `5 * n` and runs
exactly when `5 * n < max_wait_time`. -/
def pollIters (max_wait_time : Int) : Nat := (max_wait_time + 4).toNat / 5

/-- The body of the polling while-loop. `fuel` is the number of iterations
the budget still allows, `n` the number of status calls already made; the
second component collects the elapsed times at which status calls start. -/
def pollLoopAux (remote : Nat → Except String RemoteResult) :
    Nat → Nat → PollResult × List Int
  | 0, _ => (timedOutResult, [])
  | fuel + 1, n =>
      match remote n with
      | .error e =>
          (⟨true, [], 0, some ("API request failed: " ++ e)⟩, [5 * (n : Int)])
      | .ok result =>
          if result.done then
            match result.errorField with
            | some err => (⟨true, [], 0, some err⟩, [5 * (n : Int)])
            | none =>
                (⟨true, result.videos, result.raiCount, none⟩, [5 * (n : Int)])
          else
            let next := pollLoopAux remote fuel (n + 1)
            (next.1, 5 * (n : Int) :: next.2)

/-- Models `VeoClient.poll_operation`; returns the result dictionary together
with the elapsed times at which the status calls were issued. -/
def poll_operation (remote : Nat → Except String RemoteResult)
    (max_wait_time : Int) : PollResult × List Int :=
  pollLoopAux remote (pollIters max_wait_time) 0

/-! ## Settings store (`src/database/settings.py`) -/

/-- One row of the `user_settings` table (the key is carried separately). -/
structure USettings where
  model : String
  duration : Int
  resolution : String
  deriving Repr, DecidableEq

/-- The static default triple. -/
def defaultSettings : USettings :=
  ⟨DEFAULT_MODEL, DEFAULT_DURATION, DEFAULT_RESOLUTION⟩

/-- The `user_settings` table: rows keyed by user id. -/
abbrev SettingsDB := List (Int × USettings)

/-- Models `get_user_settings`: the persisted row, or the defaults. -/
def get_user_settings (db : SettingsDB) (user_id : Int) : USettings :=
  match db.find? (fun p => p.1 == user_id) with
  | some p => p.2
  | none => defaultSettings

/-- Models `set_user_settings`: merge the supplied fields onto the current
(persisted-or-default) settings, then `INSERT OR REPLACE` the merged row;
returns the new table and the merged record. -/
def set_user_settings (db : SettingsDB) (user_id : Int) (model : Option String)
    (duration : Option Int) (resolution : Option String) :
    SettingsDB × USettings :=
  let current := get_user_settings db user_id
  let merged : USettings :=
    { model := model.getD current.model
      duration := duration.getD current.duration
      resolution := resolution.getD current.resolution }
  (db.filter (fun p => p.1 != user_id) ++ [(user_id, merged)], merged)

/-- Models `reset_user_settings`: DELETE the row, then read back. -/
def reset_user_settings (db : SettingsDB) (user_id : Int) :
    SettingsDB × USettings :=
  let db2 := db.filter (fun p => p.1 != user_id)
  (db2, get_user_settings db2 user_id)

/-- One recorded `set` call, for stating properties over call sequences. -/
structure SetOp where
  user_id : Int
  model : Option String
  duration : Option Int
  resolution : Option String

/-- Applies a sequence of `set_user_settings` calls to the table. -/
def applyOps (db : SettingsDB) : List SetOp → SettingsDB
  | [] => db
  | op :: rest =>
      applyOps
        (set_user_settings db op.user_id op.model op.duration op.resolution).1
        rest

/-! ## Usage ledger (`src/database/messages.py`) -/

/-- One row of the `messages` table. -/
structure MsgRecord where
  id : Nat
  user_id : Int
  username : String
  prompt_tokens : Nat
  output_prompt_tokens : Nat
  model : String
  cost : Rat
  duration_seconds : Int
  resolution : String
  status : String
  deriving Repr, DecidableEq

/-- One executed UPDATE statement (the fields `update_message` was given). -/
structure UpdateEntry where
  message_id : Nat
  prompt_tokens : Option Nat
  output_prompt_tokens : Option Nat
  cost : Option Rat
  status : Option String
  deriving Repr, DecidableEq

/-- The `messages` table together with the history of executed updates. -/
structure MsgDB where
  records : List MsgRecord
  updateLog : List UpdateEntry
  deriving Repr, DecidableEq

def emptyMsgDB : MsgDB := ⟨[], []⟩

/-- Models `create_message`: INSERT one row and return `lastrowid`
(AUTOINCREMENT starting at 1; rows are never deleted). -/
def create_message (db : MsgDB) (user_id : Int) (username : String)
    (model : String) (duration_seconds : Int) (resolution : String)
    (prompt_tokens output_prompt_tokens : Nat) (cost : Rat) (status : String) :
    MsgDB × Nat :=
  let id := db.records.length + 1
  ({ db with
      records := db.records ++
        [⟨id, user_id, username, prompt_tokens, output_prompt_tokens, model,
          cost, duration_seconds, resolution, status⟩] }, id)

/-- Models `update_message`: apply only the supplied fields to the row with
the given id; a call with no fields executes no UPDATE. -/
def update_message (db : MsgDB) (message_id : Nat) (prompt_tokens : Option Nat)
    (output_prompt_tokens : Option Nat) (cost : Option Rat)
    (status : Option String) : MsgDB :=
  if prompt_tokens.isSome || output_prompt_tokens.isSome || cost.isSome ||
      status.isSome then
    { records := db.records.map fun r =>
        if r.id = message_id then
          { r with
            prompt_tokens := prompt_tokens.getD r.prompt_tokens
            output_prompt_tokens :=
              output_prompt_tokens.getD r.output_prompt_tokens
            cost := cost.getD r.cost
            status := status.getD r.status }
        else r
      updateLog := db.updateLog ++
        [⟨message_id, prompt_tokens, output_prompt_tokens, cost, status⟩] }
  else db

/-- Models `get_successful_videos_count`: rows with status `success`. -/
def get_successful_videos_count (db : MsgDB) : Nat :=
  (db.records.filter (fun r => r.status == "success")).length

/-! ## Orchestrator pipeline (`handle_message` in
`src/bot/handlers/messages.py`) -/

/-- User-visible category of how one request ended. `errorCaught` is the
outer `except` block rendering a truncated exception message;
`crashedPending` is an exception raised before the `try` block (by the
initial status-message send), which propagates with the record still
pending. -/
inductive Reply where
  | invalidPrompt
  | quotaExceeded
  | genFailed (msg : String)
  | pollNotDone
  | noVideos
  | errorCaught (msg : String)
  | crashedPending
  | delivered
  deriving Repr, DecidableEq

/-- Observable side effects of one request beyond the ledger: the reply
category, whether the scoped temporary video file was created and whether it
was deleted, and whether the video bytes were fetched. -/
structure Outcome where
  reply : Reply
  tempCreated : Bool
  tempCleaned : Bool
  downloaded : Bool
  deriving Repr, DecidableEq

/-- The external world one request runs against. Each `Except String _`
field is the outcome of one awaited effectful call, in pipeline order;
`.error msg` models that call raising an exception with message `msg`. -/
structure Env where
  prompt : String
  user_id : Int
  username : String
  answer : Except String Unit
  submit : Except String String
  edit1 : Except String Unit
  remote : Nat → Except String RemoteResult
  edit2 : Except String Unit
  gcsFetch : String → String → Except String (List Nat)
  writeBytes : Except String Unit
  edit3 : Except String Unit
  deliver : Except String Unit
  deleteStatus : Except String Unit

/-- ASCII whitespace, the characters `str.strip` removes from model inputs. -/
def isSpaceChar (c : Char) : Bool :=
  c == ' ' || c == '\t' || c == '\n' || c == '\r' || c == '\x0b' || c == '\x0c'

/-- Models `str.strip` on the prompt (ASCII whitespace). -/
def pyStrip (s : String) : String :=
  String.mk (((s.data.dropWhile isSpaceChar).reverse.dropWhile isSpaceChar).reverse)

/-- Models the error-message truncation in the outer `except` block. -/
def pyTruncate (s : String) : String :=
  if s.length > 200 then String.mk (s.data.take 200) ++ "..." else s

/-- The exception message carried by each `DownloadErr`. -/
def downloadErrMsg : DownloadErr → String
  | .unsupported => "Video data must contain either 'gcsUri' or 'bytesBase64Encoded'"
  | .badUri => "not enough values to unpack (expected 2, got 1)"
  | .badBase64 => "Invalid base64-encoded string"
  | .external e => e

/-- Python truthiness of `poll_result.get("error")`: an absent key or an
empty string is falsy. -/
def optTruthy : Option String → Bool
  | some s => s != ""
  | none => false

/-- Models one run of `handle_message` over the settings table and the
ledger; returns the new ledger and the observable outcome. The settings
table is only read. Control flow follows the source: prompt strip check,
quota check, record creation, initial answer (outside the `try`), then the
`try` body with submit, status edits, poll, cost, download, temp file write,
delivery inside `try/finally cleanup`, success update, status-message
delete, and the outer `except` marking the record failed on any exception
raised inside the `try`. -/
def runRequest (env : Env) (sdb : SettingsDB) (db : MsgDB) : MsgDB × Outcome :=
  if pyStrip env.prompt == "" then (db, ⟨.invalidPrompt, false, false, false⟩) else
  let videos_generated := get_successful_videos_count db
  if GLOBAL_VIDEO_QUOTA_LIMIT ≤ videos_generated then
    (db, ⟨.quotaExceeded, false, false, false⟩)
  else
    let user_settings := get_user_settings sdb env.user_id
    let created := create_message db env.user_id env.username
      user_settings.model user_settings.duration user_settings.resolution
      0 0 0 "pending"
    let db1 := created.1
    let message_id := created.2
    match env.answer with
    | .error _ => (db1, ⟨.crashedPending, false, false, false⟩)
    | .ok _ =>
      match env.submit with
      | .error e =>
          (update_message db1 message_id none none none (some "failed"),
           ⟨.errorCaught (pyTruncate e), false, false, false⟩)
      | .ok _operation_name =>
        match env.edit1 with
        | .error e =>
            (update_message db1 message_id none none none (some "failed"),
             ⟨.errorCaught (pyTruncate e), false, false, false⟩)
        | .ok _ =>
          let poll_result := (poll_operation env.remote 600).1
          if optTruthy poll_result.error then
            (update_message db1 message_id none none none (some "failed"),
             ⟨.genFailed (poll_result.error.getD ""), false, false, false⟩)
          else if !poll_result.done then
            (update_message db1 message_id none none none (some "failed"),
             ⟨.pollNotDone, false, false, false⟩)
          else
            match poll_result.videos with
            | [] =>
                (update_message db1 message_id none none none (some "failed"),
                 ⟨.noVideos, false, false, false⟩)
            | video_data :: _ =>
              let cost := calculate_cost user_settings.model
                user_settings.duration
              match env.edit2 with
              | .error e =>
                  (update_message db1 message_id none none none (some "failed"),
                   ⟨.errorCaught (pyTruncate e), false, false, false⟩)
              | .ok _ =>
                match download_video env.gcsFetch video_data with
                | .error derr =>
                    (update_message db1 message_id none none none
                      (some "failed"),
                     ⟨.errorCaught (pyTruncate (downloadErrMsg derr)),
                      false, false, false⟩)
                | .ok _video_bytes =>
                  match env.writeBytes with
                  | .error e =>
                      (update_message db1 message_id none none none
                        (some "failed"),
                       ⟨.errorCaught (pyTruncate e), true, false, true⟩)
                  | .ok _ =>
                    match env.edit3 with
                    | .error e =>
                        (update_message db1 message_id none none none
                          (some "failed"),
                         ⟨.errorCaught (pyTruncate e), true, false, true⟩)
                    | .ok _ =>
                      match env.deliver with
                      | .error e =>
                          (update_message db1 message_id none none none
                            (some "failed"),
                           ⟨.errorCaught (pyTruncate e), true, true, true⟩)
                      | .ok _ =>
                        let db2 := update_message db1 message_id none none
                          (some cost) (some "success")
                        match env.deleteStatus with
                        | .error e =>
                            (update_message db2 message_id none none none
                              (some "failed"),
                             ⟨.errorCaught (pyTruncate e), true, true, true⟩)
                        | .ok _ => (db2, ⟨.delivered, true, true, true⟩)

/-- A sequence of requests run one after another against the shared ledger. -/
def runAll (envs : List Env) (sdb : SettingsDB) (db : MsgDB) :
    MsgDB × List Outcome :=
  match envs with
  | [] => (db, [])
  | e :: rest =>
      let step := runRequest e sdb db
      let next := runAll rest sdb step.1
      (next.1, step.2 :: next.2)

/-! ## Helper lemmas -/

theorem startsWithSub_iff (nd : List Char) :
    ∀ hay, startsWithSub nd hay = true ↔ ∃ t, hay = nd ++ t := by
  induction nd with
  | nil => intro hay; simp [startsWithSub]
  | cons a as ih =>
    intro hay
    cases hay with
    | nil =>
      simp only [startsWithSub]
      constructor
      · intro h; cases h
      · rintro ⟨t, ht⟩; cases ht
    | cons b bs =>
      simp only [startsWithSub, Bool.and_eq_true, beq_iff_eq, ih]
      constructor
      · rintro ⟨rfl, t, rfl⟩; exact ⟨t, rfl⟩
      · rintro ⟨t, ht⟩
        injection ht with h1 h2
        exact ⟨h1.symm, t, h2⟩

theorem containsSub_iff (nd : List Char) :
    ∀ hay, containsSub nd hay = true ↔ ∃ l r, hay = l ++ nd ++ r := by
  intro hay
  induction hay with
  | nil =>
    simp only [containsSub, startsWithSub_iff]
    constructor
    · rintro ⟨t, ht⟩
      refine ⟨[], t, ?_⟩; simpa using ht
    · rintro ⟨l, r, h⟩
      have hl : l = [] := by
        cases l with
        | nil => rfl
        | cons x xs => cases h
      subst hl
      exact ⟨r, by simpa using h⟩
  | cons c rest ih =>
    simp only [containsSub, Bool.or_eq_true, startsWithSub_iff, ih]
    constructor
    · rintro (⟨t, ht⟩ | ⟨l, r, hlr⟩)
      · exact ⟨[], t, by simpa using ht⟩
      · exact ⟨c :: l, r, by simp [hlr]⟩
    · rintro ⟨l, r, hlr⟩
      cases l with
      | nil => exact Or.inl ⟨r, by simpa using hlr⟩
      | cons x xs =>
        injection hlr with h1 h2
        exact Or.inr ⟨xs, r, h2⟩

theorem map_eq_append_decomp {α β : Type} (g : α → β) :
    ∀ (xs : List α) (u v : List β), xs.map g = u ++ v →
      ∃ a b, xs = a ++ b ∧ a.map g = u ∧ b.map g = v := by
  intro xs u
  induction u generalizing xs with
  | nil => intro v h; exact ⟨[], xs, rfl, rfl, by simpa using h⟩
  | cons y ys ih =>
    intro v h
    cases xs with
    | nil => cases h
    | cons x xt =>
      simp only [List.map_cons, List.cons_append] at h
      injection h with h1 h2
      obtain ⟨a, b, rfl, ha, hb⟩ := ih xt v h2
      exact ⟨x :: a, b, rfl, by simp [h1, ha], hb⟩

theorem specFastModel_iff (m : String) :
    containsSub "fast".data (pyLower m).data = true ↔ SpecFastModel m := by
  have hdata : (pyLower m).data = m.data.map Char.toLower := rfl
  rw [hdata, containsSub_iff]
  constructor
  · rintro ⟨l, r, h⟩
    rw [List.append_assoc] at h
    obtain ⟨a, b, hab, ha, hb⟩ := map_eq_append_decomp Char.toLower m.data l
      ("fast".data ++ r) h
    obtain ⟨b1, b2, hbb, hb1, hb2⟩ := map_eq_append_decomp Char.toLower b
      "fast".data r hb
    exact ⟨a, b1, b2, by rw [hab, hbb, List.append_assoc], hb1⟩
  · rintro ⟨l, mid, r, hm, hmap⟩
    refine ⟨l.map Char.toLower, r.map Char.toLower, ?_⟩
    rw [hm]
    simp [hmap]

theorem find?_cons_eq_false {α : Type} (p : α → Bool) (a : α) (l : List α)
    (h : p a = false) : List.find? p (a :: l) = List.find? p l := by
  simp [List.find?, h]

theorem find?_append_of_none {α : Type} (p : α → Bool) (l1 l2 : List α)
    (h : List.find? p l1 = none) :
    List.find? p (l1 ++ l2) = List.find? p l2 := by
  induction l1 with
  | nil => rfl
  | cons a l ih =>
    cases hpa : p a with
    | true => simp [List.find?, hpa] at h
    | false =>
      simp only [List.find?, hpa] at h
      simp only [List.cons_append, List.find?, hpa]
      exact ih h

theorem find?_filter_ne_none {α : Type} (p q : α → Bool) (l : List α)
    (h : ∀ x, q x = true → p x = false) :
    List.find? p (l.filter q) = none := by
  induction l with
  | nil => rfl
  | cons a l ih =>
    cases hqa : q a with
    | true =>
      rw [List.filter_cons_of_pos hqa, find?_cons_eq_false p a _ (h a hqa)]
      exact ih
    | false => rw [List.filter_cons_of_neg (by simp [hqa])]; exact ih

theorem get_after_upsert (db : SettingsDB) (user_id : Int) (v : USettings) :
    get_user_settings (db.filter (fun p => p.1 != user_id) ++ [(user_id, v)])
      user_id = v := by
  unfold get_user_settings
  rw [find?_append_of_none _ _ _
    (find?_filter_ne_none _ _ _ (by intro x hx; simpa using hx))]
  simp [List.find?]

theorem get_after_delete (db : SettingsDB) (user_id : Int) :
    get_user_settings (db.filter (fun p => p.1 != user_id)) user_id =
      defaultSettings := by
  unfold get_user_settings
  rw [find?_filter_ne_none _ _ _ (by intro x hx; simpa using hx)]

theorem pollIters_lt_iff (w : Int) (n : Nat) :
    n < pollIters w ↔ 5 * (n : Int) < w := by
  unfold pollIters
  omega

theorem pollLoopAux_success (remote : Nat → Except String RemoteResult) :
    ∀ (k fuel n : Nat), k < fuel →
      (∀ i, i < k → ∃ r, remote (n + i) = Except.ok r ∧ r.done = false) →
      ∀ rk : RemoteResult, remote (n + k) = Except.ok rk → rk.done = true →
        rk.errorField = none →
        pollLoopAux remote fuel n =
          (⟨true, rk.videos, rk.raiCount, none⟩,
           List.map (fun i : Nat => 5 * ((n : Int) + (i : Int)))
             (List.range (k + 1))) := by
  intro k
  induction k with
  | zero =>
    intro fuel n hfuel hnot rk hk hd he
    cases fuel with
    | zero => omega
    | succ f =>
      simp only [Nat.add_zero] at hk
      simp [pollLoopAux, hk, hd, he, List.range_succ]
  | succ k ih =>
    intro fuel n hfuel hnot rk hk hd he
    cases fuel with
    | zero => omega
    | succ f =>
      obtain ⟨r0, hr0, hr0d⟩ := hnot 0 (Nat.succ_pos k)
      simp only [Nat.add_zero] at hr0
      have hrec := ih f (n + 1) (by omega)
        (fun i hi => by
          have := hnot (i + 1) (by omega)
          simpa [Nat.add_assoc, Nat.add_comm 1 i] using this)
        rk (by simpa [Nat.add_assoc, Nat.add_comm 1 k] using hk) hd he
      simp only [pollLoopAux, hr0, hr0d, Bool.false_eq_true, if_false, hrec]
      have hfun : ((fun i : Nat => 5 * ((n : Int) + (i : Int))) ∘ Nat.succ) =
          (fun i : Nat => 5 * (((n + 1 : Nat) : Int) + (i : Int))) := by
        funext i
        simp only [Function.comp_apply, Nat.succ_eq_add_one]
        push_cast
        ring
      congr 1
      conv_rhs => rw [List.range_succ_eq_map, List.map_cons, List.map_map, hfun]
      simp

theorem pollLoopAux_timeout (remote : Nat → Except String RemoteResult) :
    ∀ (fuel n : Nat),
      (∀ i, i < fuel → ∃ r, remote (n + i) = Except.ok r ∧ r.done = false) →
      (pollLoopAux remote fuel n).1 = timedOutResult := by
  intro fuel
  induction fuel with
  | zero => intro n _; rfl
  | succ f ih =>
    intro n hnot
    obtain ⟨r0, hr0, hr0d⟩ := hnot 0 (Nat.succ_pos f)
    simp only [Nat.add_zero] at hr0
    have hrec := ih (n + 1) (fun i hi => by
      have := hnot (i + 1) (by omega)
      simpa [Nat.add_assoc, Nat.add_comm 1 i] using this)
    simp [pollLoopAux, hr0, hr0d, hrec]

/-! ## Base64 round-trip lemmas -/

theorem b64Val_b64Char : ∀ n, n < 64 →
    b64Val (b64Char n) = some n ∧ (b64Char n == '=') = false := by decide

theorem b64_roundtrip_list :
    ∀ bs : List Nat, (∀ x ∈ bs, x < 256) →
      b64decodeList (b64encodeList bs) = some bs := by
  intro bs
  induction bs using b64encodeList.induct with
  | case1 => intro _; rfl
  | case2 a =>
    intro hb
    have ha : a < 256 := hb a (by simp)
    obtain ⟨hv1, _⟩ := b64Val_b64Char (a / 4) (by omega)
    obtain ⟨hv2, _⟩ := b64Val_b64Char (a % 4 * 16) (by omega)
    have h1 : a / 4 * 4 + a % 4 * 16 / 16 = a := by omega
    simp only [b64encodeList, b64decodeList, List.isEmpty_nil, beq_self_eq_true,
      Bool.and_self, Bool.and_true, Bool.true_and, if_true, hv1, hv2, h1]
  | case3 a b =>
    intro hb
    have ha : a < 256 := hb a (by simp)
    have hbb : b < 256 := hb b (by simp)
    obtain ⟨hv1, _⟩ := b64Val_b64Char (a / 4) (by omega)
    obtain ⟨hv2, _⟩ := b64Val_b64Char (a % 4 * 16 + b / 16) (by omega)
    obtain ⟨hv3, hne3⟩ := b64Val_b64Char (b % 16 * 4) (by omega)
    have h1 : a / 4 * 4 + (a % 4 * 16 + b / 16) / 16 = a := by omega
    have h2 : (a % 4 * 16 + b / 16) % 16 * 16 + b % 16 * 4 / 4 = b := by omega
    simp only [b64encodeList, b64decodeList, List.isEmpty_nil, hne3,
      Bool.true_and, Bool.and_false, Bool.false_and, if_false,
      beq_self_eq_true, Bool.and_true, if_true, hv1, hv2, hv3, h1, h2]
    simp
  | case4 a b c rest ih =>
    intro hb
    have ha : a < 256 := hb a (by simp)
    have hbb : b < 256 := hb b (by simp)
    have hc : c < 256 := hb c (by simp)
    have hrest := ih (fun x hx => hb x (by simp [hx]))
    obtain ⟨hv1, _⟩ := b64Val_b64Char (a / 4) (by omega)
    obtain ⟨hv2, _⟩ := b64Val_b64Char (a % 4 * 16 + b / 16) (by omega)
    obtain ⟨hv3, hne3⟩ := b64Val_b64Char (b % 16 * 4 + c / 64) (by omega)
    obtain ⟨hv4, hne4⟩ := b64Val_b64Char (c % 64) (by omega)
    have h1 : a / 4 * 4 + (a % 4 * 16 + b / 16) / 16 = a := by omega
    have h2 : (a % 4 * 16 + b / 16) % 16 * 16 + (b % 16 * 4 + c / 64) / 4 = b := by
      omega
    have h3 : (b % 16 * 4 + c / 64) % 4 * 64 + c % 64 = c := by omega
    simp only [b64encodeList, b64decodeList, hne3, hne4, Bool.and_false,
      if_false, hv1, hv2, hv3, hv4, hrest, h1, h2, h3]
    simp

theorem runRequest_timeout_no_fetch (env : Env) (sdb : SettingsDB)
    (db : MsgDB) (h : (poll_operation env.remote 600).1 = timedOutResult) :
    (runRequest env sdb db).2.downloaded = false ∧
    (runRequest env sdb db).2.tempCreated = false := by
  simp only [runRequest]
  split
  · exact ⟨rfl, rfl⟩
  split
  · exact ⟨rfl, rfl⟩
  cases env.answer with
  | error e => exact ⟨rfl, rfl⟩
  | ok u =>
    cases env.submit with
    | error e => exact ⟨rfl, rfl⟩
    | ok op =>
      cases env.edit1 with
      | error e => exact ⟨rfl, rfl⟩
      | ok u2 =>
        rw [h]
        simp [optTruthy, timedOutResult]

/-! ## Claim theorems -/

/-- C1: (a) if the remote status endpoint reports done=false on each of the
first k calls and on call k+1 reports done=true with no error and video list
[v], within the max-wait budget, then poll makes exactly k+1 status calls at
5-second spacing (elapsed times 0, 5, ..., 5k) and returns the completed
result with video list [v]; (b) if the remote never reports done within the
budget, poll returns {done: false, error: "Operation timed out", videos: []};
(c) in that never-done case the handler fetches no video (nothing is
downloaded, no temp file is created). -/
theorem c1_poll_exact_calls_and_timeout :
    (∀ (remote : Nat → Except String RemoteResult) (k : Nat)
        (rk : RemoteResult) (v : VideoData) (w : Int),
        (∀ i, i < k → ∃ r, remote i = Except.ok r ∧ r.done = false) →
        remote k = Except.ok rk → rk.done = true → rk.errorField = none →
        rk.videos = [v] → 5 * (k : Int) < w →
        poll_operation remote w =
          (⟨true, [v], rk.raiCount, none⟩,
           List.map (fun i : Nat => 5 * (i : Int)) (List.range (k + 1)))) ∧
    (∀ (remote : Nat → Except String RemoteResult) (w : Int),
        (∀ i : Nat, 5 * (i : Int) < w →
          ∃ r, remote i = Except.ok r ∧ r.done = false) →
        (poll_operation remote w).1 = timedOutResult) ∧
    (∀ (env : Env) (sdb : SettingsDB) (db : MsgDB),
        (∀ i : Nat, 5 * (i : Int) < 600 →
          ∃ r, env.remote i = Except.ok r ∧ r.done = false) →
        (runRequest env sdb db).2.downloaded = false ∧
        (runRequest env sdb db).2.tempCreated = false) := by
  have hb : ∀ (remote : Nat → Except String RemoteResult) (w : Int),
      (∀ i : Nat, 5 * (i : Int) < w →
        ∃ r, remote i = Except.ok r ∧ r.done = false) →
      (poll_operation remote w).1 = timedOutResult := by
    intro remote w h
    unfold poll_operation
    refine pollLoopAux_timeout remote (pollIters w) 0 (fun i hi => ?_)
    simpa using h i ((pollIters_lt_iff w i).mp hi)
  refine ⟨?_, hb, ?_⟩
  · intro remote k rk v w hnot hk hd he hv h5
    have hrun := pollLoopAux_success remote k (pollIters w) 0
      ((pollIters_lt_iff w k).mpr h5)
      (fun i hi => by simpa using hnot i hi)
      rk (by simpa using hk) hd he
    unfold poll_operation
    rw [hrun, hv]
    have hfe : (fun i : Nat => 5 * (((0 : Nat) : Int) + (i : Int))) =
        (fun i : Nat => 5 * (i : Int)) := by
      funext i
      simp
    rw [hfe]
  · intro env sdb db h
    exact runRequest_timeout_no_fetch env sdb db (hb env.remote 600 h)

/-- Witness for C1: a remote that is pending on calls 0 and 1 and done with
one video on call 2 (part a); a remote that is never done (parts b and c). -/
theorem c1_poll_exact_calls_and_timeout_witness :
    poll_operation
        (fun n => match n with
          | 0 => Except.ok ⟨false, none, [], 0⟩
          | 1 => Except.ok ⟨false, none, [], 0⟩
          | _ => Except.ok ⟨true, none, [⟨none, some "AAAA"⟩], 3⟩) 600 =
      (⟨true, [⟨none, some "AAAA"⟩], 3, none⟩,
       List.map (fun i : Nat => 5 * (i : Int)) (List.range 3)) ∧
    (poll_operation (fun _ => Except.ok ⟨false, none, [], 0⟩) 600).1 =
      timedOutResult ∧
    (runRequest
        { prompt := "sunset", user_id := 9, username := "dave",
          answer := Except.ok (), submit := Except.ok "op-9",
          edit1 := Except.ok (),
          remote := fun _ => Except.ok ⟨false, none, [], 0⟩,
          edit2 := Except.ok (), gcsFetch := fun _ _ => Except.ok [],
          writeBytes := Except.ok (), edit3 := Except.ok (),
          deliver := Except.ok (), deleteStatus := Except.ok () }
        [] emptyMsgDB).2.downloaded = false := by
  refine ⟨?_, ?_, ?_⟩
  · refine c1_poll_exact_calls_and_timeout.1 _ 2 ⟨true, none, [⟨none, some "AAAA"⟩], 3⟩
      ⟨none, some "AAAA"⟩ 600 ?_ rfl rfl rfl rfl (by norm_num)
    intro i hi
    match i, hi with
    | 0, _ => exact ⟨_, rfl, rfl⟩
    | 1, _ => exact ⟨_, rfl, rfl⟩
    | n + 2, hi => exact absurd hi (by omega)
  · exact c1_poll_exact_calls_and_timeout.2.1 _ 600 (fun i _ => ⟨_, rfl, rfl⟩)
  · exact (c1_poll_exact_calls_and_timeout.2.2 _ [] emptyMsgDB
      (fun i _ => ⟨_, rfl, rfl⟩)).1

/-- C10: if poll is called with a `max_wait_seconds` budget ≤ 0, it issues no
remote status call at all and immediately returns the timed-out result
`{done: false, error: "Operation timed out", videos: []}` (the second
component, the list of issued calls, is empty). -/
theorem c10_nonpositive_budget_no_calls
    (remote : Nat → Except String RemoteResult) (max_wait_time : Int)
    (h : max_wait_time ≤ 0) :
    poll_operation remote max_wait_time = (timedOutResult, []) := by
  have hz : pollIters max_wait_time = 0 := by unfold pollIters; omega
  rw [poll_operation, hz]
  rfl

/-- Witness for C10 at budget 0. -/
theorem c10_nonpositive_budget_no_calls_witness :
    (0 : Int) ≤ 0 ∧
      poll_operation (fun _ => Except.ok ⟨false, none, [], 0⟩) 0 =
        (timedOutResult, []) :=
  ⟨le_refl 0, c10_nonpositive_budget_no_calls _ 0 (le_refl 0)⟩

/-- C7: for every user id and every subset of supplied fields, the supplied
fields take the given values, every field not supplied keeps its current
persisted-or-default value, `set` returns that merged record, and the merged
record is persisted so that a subsequent `get` returns the same record. -/
theorem c7_set_merges_persists_and_get_agrees (db : SettingsDB)
    (user_id : Int) (model : Option String) (duration : Option Int)
    (resolution : Option String) :
    (set_user_settings db user_id model duration resolution).2 =
      ⟨model.getD (get_user_settings db user_id).model,
       duration.getD (get_user_settings db user_id).duration,
       resolution.getD (get_user_settings db user_id).resolution⟩ ∧
    get_user_settings
        (set_user_settings db user_id model duration resolution).1 user_id =
      (set_user_settings db user_id model duration resolution).2 := by
  constructor
  · rfl
  · exact get_after_upsert db user_id _

/-- C8: for every user id and every prior sequence of `set` calls, `reset`
followed by `get` returns exactly the static default triple, which is also
what `get` returns for a user with no persisted record (an empty table):
reset-then-get is equivalent to never having called set. -/
theorem c8_reset_then_get_is_defaults (db : SettingsDB) (user_id : Int)
    (ops : List SetOp) :
    get_user_settings (reset_user_settings (applyOps db ops) user_id).1
        user_id = defaultSettings ∧
    (reset_user_settings (applyOps db ops) user_id).2 = defaultSettings ∧
    get_user_settings ([] : SettingsDB) user_id = defaultSettings :=
  ⟨get_after_delete _ user_id, get_after_delete _ user_id, rfl⟩

/-- C3: the computed cost equals 0.15·d exactly when some contiguous block
of the model name lowercases to `fast` (case-insensitive substring match)
and 0.40·d for every other model name; concretely, a `fast`-named model at
duration 8 costs 1.20. -/
theorem c3_cost_is_rate_times_duration (m : String) (d : Int) :
    (SpecFastModel m → calculate_cost m d = 15 / 100 * (d : Rat)) ∧
    (¬ SpecFastModel m → calculate_cost m d = 40 / 100 * (d : Rat)) ∧
    calculate_cost "veo-3.1-fast-generate-001" 8 = 6 / 5 := by
  refine ⟨?_, ?_, ?_⟩
  · intro h
    have hc : containsSub "fast".data (pyLower m).data = true :=
      (specFastModel_iff m).mpr h
    simp only [calculate_cost, hc, if_true]
  · intro h
    have hc : containsSub "fast".data (pyLower m).data = false := by
      cases hcc : containsSub "fast".data (pyLower m).data
      · rfl
      · exact absurd ((specFastModel_iff m).mp hcc) h
    simp only [calculate_cost, hc, Bool.false_eq_true, if_false]
  · have hc : containsSub "fast".data
        (pyLower "veo-3.1-fast-generate-001").data = true := by decide
    simp only [calculate_cost, hc, if_true]
    norm_num

/-- Witness for C3: a fast model at duration 4 and a non-fast model at
duration 6. -/
theorem c3_cost_is_rate_times_duration_witness :
    calculate_cost "veo-3.1-fast-generate-001" 4 = 15 / 100 * ((4 : Int) : Rat) ∧
    calculate_cost "veo-3.0-generate-001" 6 = 40 / 100 * ((6 : Int) : Rat) := by
  constructor
  · exact (c3_cost_is_rate_times_duration "veo-3.1-fast-generate-001" 4).1
      ⟨"veo-3.1-".data, "fast".data, "-generate-001".data, by decide, by decide⟩
  · refine (c3_cost_is_rate_times_duration "veo-3.0-generate-001" 6).2.1 ?_
    intro h
    have hcc := (specFastModel_iff "veo-3.0-generate-001").mpr h
    revert hcc
    decide

/-- C4: fetch applied to a descriptor carrying the base64 encoding of a byte
string `b` (and no `gcsUri`) returns exactly `b` (round-trip), and fetch
raises the unsupported-encoding `ValueError` exactly when neither
`gcsUri` nor `bytesBase64Encoded` is present. -/
theorem c4_roundtrip_and_unsupported :
    (∀ (gcsFetch : String → String → Except String (List Nat)) (b : List Nat),
        (∀ x ∈ b, x < 256) →
        download_video gcsFetch ⟨none, some (b64encode b)⟩ = Except.ok b) ∧
    (∀ (gcsFetch : String → String → Except String (List Nat)) (v : VideoData),
        download_video gcsFetch v = Except.error DownloadErr.unsupported ↔
          v.gcsUri = none ∧ v.bytesBase64Encoded = none) := by
  constructor
  · intro gcsFetch b hb
    have hdec : b64decode (b64encode b) = some b := b64_roundtrip_list b hb
    simp only [download_video, hdec]
  · intro gcsFetch v
    obtain ⟨gu, bu⟩ := v
    cases gu with
    | some uri =>
      constructor
      · intro h
        exfalso
        revert h
        cases hsp : splitOnce '/' (removeAll "gs://".data uri.data) with
        | some p =>
          cases hg : gcsFetch ⟨p.1⟩ ⟨p.2⟩ with
          | ok bs => simp [download_video, hsp, hg]
          | error e => simp [download_video, hsp, hg]
        | none => simp [download_video, hsp]
      · rintro ⟨h1, -⟩
        cases h1
    | none =>
      cases bu with
      | some s =>
        cases hd : b64decode s with
        | some bs => simp [download_video, hd]
        | none => simp [download_video, hd]
      | none => simp [download_video]

/-- Witness for C4 at the byte string `[104, 105, 255]`. -/
theorem c4_roundtrip_and_unsupported_witness :
    (∀ x ∈ [104, 105, 255], x < 256) ∧
      download_video (fun _ _ => Except.ok [])
          ⟨none, some (b64encode [104, 105, 255])⟩ =
        Except.ok [104, 105, 255] :=
  ⟨by decide, c4_roundtrip_and_unsupported.1 _ [104, 105, 255] (by decide)⟩

/-- C9: on a descriptor carrying both `gcsUri` and `bytesBase64Encoded`,
fetch takes the object-storage branch exclusively: the result is the same as
for a descriptor with no inline payload at all, and for a URI whose
`gs://`-stripped form splits into bucket and blob path the bytes come from
the storage download (the inline base64 payload is ignored). -/
theorem c9_gcs_branch_has_priority
    (gcsFetch : String → String → Except String (List Nat))
    (uri payload : String) :
    download_video gcsFetch ⟨some uri, some payload⟩ =
      download_video gcsFetch ⟨some uri, none⟩ ∧
    (∀ bucket blob : List Char,
        splitOnce '/' (removeAll "gs://".data uri.data) = some (bucket, blob) →
        download_video gcsFetch ⟨some uri, some payload⟩ =
          Except.mapError DownloadErr.external
            (gcsFetch (String.mk bucket) (String.mk blob))) := by
  constructor
  · rfl
  · intro bucket blob h
    simp only [download_video, h]
    cases hg : gcsFetch (String.mk bucket) (String.mk blob) with
    | ok bs => simp [Except.mapError, hg]
    | error e => simp [Except.mapError, hg]

/-- Witness for C9 at a concrete two-field descriptor. -/
theorem c9_gcs_branch_has_priority_witness :
    splitOnce '/' (removeAll "gs://".data "gs://bucket/path.mp4".data) =
      some ("bucket".data, "path.mp4".data) ∧
    download_video (fun _ _ => Except.ok [7])
        ⟨some "gs://bucket/path.mp4", some "AAAA"⟩ =
      Except.mapError DownloadErr.external
        (Except.ok ([7] : List Nat) : Except String (List Nat)) := by
  constructor
  · decide
  · exact (c9_gcs_branch_has_priority (fun _ _ => Except.ok [7])
      "gs://bucket/path.mp4" "AAAA").2 "bucket".data "path.mp4".data (by decide)

/-- C2 (amended): whenever the ledger's successful count at a request's
quota check is at or above the global limit (70), the handler replies with
the quota-exceeded message and stops before any ledger record is created —
the ledger (rows and update log) is unchanged; consequently, for any
sequence of subsequent requests run against such a ledger, the ledger stays
unchanged and every request with a non-empty prompt is rejected the same
pre-record-creation way, permanently. (The original claim's justification
that a success status is never revoked does not hold of the code — see the
counterexample — but rejected requests leave the ledger untouched, which is
what gives permanence.) -/
theorem c2_quota_rejection_permanent :
    (∀ (env : Env) (sdb : SettingsDB) (db : MsgDB),
        (pyStrip env.prompt == "") = false →
        GLOBAL_VIDEO_QUOTA_LIMIT ≤ get_successful_videos_count db →
        runRequest env sdb db =
          (db, ⟨.quotaExceeded, false, false, false⟩)) ∧
    (∀ (envs : List Env) (sdb : SettingsDB) (db : MsgDB),
        GLOBAL_VIDEO_QUOTA_LIMIT ≤ get_successful_videos_count db →
        (runAll envs sdb db).1 = db ∧
        (runAll envs sdb db).2 = envs.map fun e =>
          if (pyStrip e.prompt == "") = true
          then (⟨.invalidPrompt, false, false, false⟩ : Outcome)
          else ⟨.quotaExceeded, false, false, false⟩) := by
  have ha : ∀ (env : Env) (sdb : SettingsDB) (db : MsgDB),
      (pyStrip env.prompt == "") = false →
      GLOBAL_VIDEO_QUOTA_LIMIT ≤ get_successful_videos_count db →
      runRequest env sdb db = (db, ⟨.quotaExceeded, false, false, false⟩) := by
    intro env sdb db hp hq
    simp only [runRequest, hp, Bool.false_eq_true, if_false, hq, if_true]
  refine ⟨ha, ?_⟩
  intro envs sdb db hq
  induction envs with
  | nil => exact ⟨rfl, rfl⟩
  | cons e rest ih =>
    obtain ⟨ih1, ih2⟩ := ih
    cases hp : (pyStrip e.prompt == "") with
    | true =>
      have hstep : runRequest e sdb db =
          (db, ⟨.invalidPrompt, false, false, false⟩) := by
        simp only [runRequest, hp, if_true]
      simp only [runAll, hstep, ih1, ih2, List.map_cons, hp, if_true]
      exact ⟨trivial, trivial⟩
    | false =>
      have hstep := ha e sdb db hp hq
      simp only [runAll, hstep, ih1, ih2, List.map_cons, hp,
        Bool.false_eq_true, if_false]
      exact ⟨trivial, trivial⟩

/-- Witness for C2 at a ledger already holding 70 success rows. -/
theorem c2_quota_rejection_permanent_witness :
    (pyStrip "sunset" == "") = false ∧
    GLOBAL_VIDEO_QUOTA_LIMIT ≤ get_successful_videos_count
      ⟨(List.range 70).map (fun i =>
          ⟨i + 1, 4, "erin", 0, 0, "veo-3.0-generate-001", 0, 8, "720p",
           "success"⟩), []⟩ ∧
    runRequest
        { prompt := "sunset", user_id := 4, username := "erin",
          answer := Except.ok (), submit := Except.ok "op-4",
          edit1 := Except.ok (),
          remote := fun _ => Except.ok ⟨true, none, [⟨none, some "AAAA"⟩], 0⟩,
          edit2 := Except.ok (), gcsFetch := fun _ _ => Except.ok [],
          writeBytes := Except.ok (), edit3 := Except.ok (),
          deliver := Except.ok (), deleteStatus := Except.ok () }
        []
        ⟨(List.range 70).map (fun i =>
            ⟨i + 1, 4, "erin", 0, 0, "veo-3.0-generate-001", 0, 8, "720p",
             "success"⟩), []⟩ =
      (⟨(List.range 70).map (fun i =>
          ⟨i + 1, 4, "erin", 0, 0, "veo-3.0-generate-001", 0, 8, "720p",
           "success"⟩), []⟩,
       ⟨.quotaExceeded, false, false, false⟩) := by
  refine ⟨rfl, ?_, ?_⟩
  · decide
  · exact c2_quota_rejection_permanent.1 _ [] _ rfl (by decide)

/-- C2 counterexample to the claim as stated: a pipeline execution in which
a success status IS revoked. The request marks its record success, then the
final status-message deletion raises and the outer except block re-marks the
same record failed: the update log of the run shows the success update for
record 1 followed by a failed update for record 1, so a success status can
be revoked by the pipeline, contradicting the claim's assertion that a
success status is never revoked. -/
theorem c2_success_status_revoked :
    (runRequest
        { prompt := "cat", user_id := 3, username := "carol",
          answer := Except.ok (), submit := Except.ok "op-2",
          edit1 := Except.ok (),
          remote := fun _ => Except.ok ⟨true, none, [⟨none, some "AAAA"⟩], 0⟩,
          edit2 := Except.ok (), gcsFetch := fun _ _ => Except.ok [],
          writeBytes := Except.ok (), edit3 := Except.ok (),
          deliver := Except.ok (), deleteStatus := Except.error "boom" }
        [] emptyMsgDB).1.updateLog.map
      (fun u => (u.message_id, u.status)) =
      [(1, some "success"), (1, some "failed")] := by
  rfl

/-- C6 (code bug): a concrete execution where generation and delivery
succeed, the record is marked success with the computed non-zero cost, and
then the final status-message deletion raises; the outer except block
updates the same record a second time, setting status to failed without
touching cost. The final ledger holds a record with status `failed` and a
non-zero cost, updated twice (pending→success→failed), violating the
claimed invariant that status changes at most once and cost is non-zero
only when status is success. -/
theorem c6_double_update_failed_record_keeps_cost :
    ((runRequest
        { prompt := "lake", user_id := 1, username := "alice",
          answer := Except.ok (), submit := Except.ok "op-1",
          edit1 := Except.ok (),
          remote := fun _ => Except.ok ⟨true, none, [⟨none, some "AAAA"⟩], 0⟩,
          edit2 := Except.ok (), gcsFetch := fun _ _ => Except.ok [],
          writeBytes := Except.ok (), edit3 := Except.ok (),
          deliver := Except.ok (),
          deleteStatus := Except.error "message not found" }
        [] emptyMsgDB).1.records.map MsgRecord.status = ["failed"]) ∧
    ((runRequest
        { prompt := "lake", user_id := 1, username := "alice",
          answer := Except.ok (), submit := Except.ok "op-1",
          edit1 := Except.ok (),
          remote := fun _ => Except.ok ⟨true, none, [⟨none, some "AAAA"⟩], 0⟩,
          edit2 := Except.ok (), gcsFetch := fun _ _ => Except.ok [],
          writeBytes := Except.ok (), edit3 := Except.ok (),
          deliver := Except.ok (),
          deleteStatus := Except.error "message not found" }
        [] emptyMsgDB).1.records.map MsgRecord.cost =
      [calculate_cost DEFAULT_MODEL DEFAULT_DURATION]) ∧
    (0 : Rat) < calculate_cost DEFAULT_MODEL DEFAULT_DURATION ∧
    ((runRequest
        { prompt := "lake", user_id := 1, username := "alice",
          answer := Except.ok (), submit := Except.ok "op-1",
          edit1 := Except.ok (),
          remote := fun _ => Except.ok ⟨true, none, [⟨none, some "AAAA"⟩], 0⟩,
          edit2 := Except.ok (), gcsFetch := fun _ _ => Except.ok [],
          writeBytes := Except.ok (), edit3 := Except.ok (),
          deliver := Except.ok (),
          deleteStatus := Except.error "message not found" }
        [] emptyMsgDB).1.updateLog.map UpdateEntry.status =
      [some "success", some "failed"]) := by
  refine ⟨rfl, rfl, ?_, rfl⟩
  have hc : containsSub "fast".data (pyLower DEFAULT_MODEL).data = true := by
    decide
  simp only [calculate_cost, hc, if_true, DEFAULT_DURATION]
  norm_num

/-- C5 (amended): cleanup of the scoped temporary file is guaranteed on
every exit path out of the delivery call itself — once the bytes are
written and the pre-delivery status update has succeeded, the temp file is
deleted whether the delivery call and the final status-message deletion
succeed or raise. (Exceptions raised earlier in the stage — while writing
the bytes to the temp file or sending the pre-delivery status update — skip
cleanup and leak the file; see the counterexample.) -/
theorem c5_cleanup_covers_delivery_exits (env : Env) (sdb : SettingsDB)
    (db : MsgDB)
    (hp : (pyStrip env.prompt == "") = false)
    (hq : ¬ GLOBAL_VIDEO_QUOTA_LIMIT ≤ get_successful_videos_count db)
    (hans : env.answer = Except.ok ())
    (hsub : ∃ op, env.submit = Except.ok op)
    (hed1 : env.edit1 = Except.ok ())
    (herr : (poll_operation env.remote 600).1.error = none)
    (hdone : (poll_operation env.remote 600).1.done = true)
    (hvids : ∃ v rest, (poll_operation env.remote 600).1.videos = v :: rest ∧
        ∃ bs, download_video env.gcsFetch v = Except.ok bs)
    (hed2 : env.edit2 = Except.ok ())
    (hwrite : env.writeBytes = Except.ok ())
    (hed3 : env.edit3 = Except.ok ()) :
    (runRequest env sdb db).2.tempCreated = true ∧
    (runRequest env sdb db).2.tempCleaned = true := by
  obtain ⟨op, hop⟩ := hsub
  obtain ⟨v, rest, hv, bs, hbs⟩ := hvids
  simp only [runRequest, hp, Bool.false_eq_true, if_false, hq, hans, hop,
    hed1, herr, optTruthy, hdone, Bool.not_true, hv, hed2, hbs, hed3, hwrite]
  cases env.deliver with
  | error e => exact ⟨rfl, rfl⟩
  | ok u =>
    cases env.deleteStatus with
    | error e => exact ⟨rfl, rfl⟩
    | ok u2 => exact ⟨rfl, rfl⟩

/-- Witness for C5: a run in which the delivery call itself raises; the temp
file is still cleaned up. -/
theorem c5_cleanup_covers_delivery_exits_witness :
    (runRequest
        { prompt := "sea", user_id := 5, username := "fred",
          answer := Except.ok (), submit := Except.ok "op-5",
          edit1 := Except.ok (),
          remote := fun _ => Except.ok ⟨true, none, [⟨none, some "AAAA"⟩], 0⟩,
          edit2 := Except.ok (), gcsFetch := fun _ _ => Except.ok [],
          writeBytes := Except.ok (), edit3 := Except.ok (),
          deliver := Except.error "telegram 502",
          deleteStatus := Except.ok () }
        [] emptyMsgDB).2.tempCreated = true ∧
    (runRequest
        { prompt := "sea", user_id := 5, username := "fred",
          answer := Except.ok (), submit := Except.ok "op-5",
          edit1 := Except.ok (),
          remote := fun _ => Except.ok ⟨true, none, [⟨none, some "AAAA"⟩], 0⟩,
          edit2 := Except.ok (), gcsFetch := fun _ _ => Except.ok [],
          writeBytes := Except.ok (), edit3 := Except.ok (),
          deliver := Except.error "telegram 502",
          deleteStatus := Except.ok () }
        [] emptyMsgDB).2.tempCleaned = true := by
  exact c5_cleanup_covers_delivery_exits _ [] emptyMsgDB rfl (by decide)
    rfl ⟨"op-5", rfl⟩ rfl rfl rfl
    ⟨⟨none, some "AAAA"⟩, [], rfl, [0, 0, 0], rfl⟩ rfl rfl rfl

/-- C5 counterexample: when writing the bytes to the temp file raises, the
handler exits the download/delivery stage through the outer except block
without running cleanup — the scoped temp file was created but is never
deleted, contradicting the claim that cleanup executes on every exit path
out of the stage. -/
theorem c5_temp_file_leak_on_write_failure :
    ((runRequest
        { prompt := "dog", user_id := 2, username := "bob",
          answer := Except.ok (), submit := Except.ok "op-3",
          edit1 := Except.ok (),
          remote := fun _ => Except.ok ⟨true, none, [⟨none, some "AAAA"⟩], 0⟩,
          edit2 := Except.ok (), gcsFetch := fun _ _ => Except.ok [],
          writeBytes := Except.error "disk full", edit3 := Except.ok (),
          deliver := Except.ok (), deleteStatus := Except.ok () }
        [] emptyMsgDB).2.tempCreated = true) ∧
    ((runRequest
        { prompt := "dog", user_id := 2, username := "bob",
          answer := Except.ok (), submit := Except.ok "op-3",
          edit1 := Except.ok (),
          remote := fun _ => Except.ok ⟨true, none, [⟨none, some "AAAA"⟩], 0⟩,
          edit2 := Except.ok (), gcsFetch := fun _ _ => Except.ok [],
          writeBytes := Except.error "disk full", edit3 := Except.ok (),
          deliver := Except.ok (), deleteStatus := Except.ok () }
        [] emptyMsgDB).2.tempCleaned = false) := by
  exact ⟨rfl, rfl⟩

end VideoGen
